import Mathlib

/-!
Verification of the Flappy-Bert anti-cheat score-validation subsystem
(`src/bot.js`): game sessions, the `validateScore` decision function, the
`POST /api/score` gateway, the session sweep, and the tournament score
endpoint. JavaScript numbers are modelled as `Nat` (all quantities in play
are non-negative integers); the fractional constants 1.2 points/second and
the 0.3/2 frame-count band are modelled exactly as rational comparisons
cleared of denominators. Optional JSON fields (`frames`, `duration`)
are `Option Nat`; JS truthiness of a number is "present and non-zero".
The ambient clock `Date.now()` is passed explicitly as `now`.
-/

namespace FlappyBert

/-- The named violation tags appearing in `validateScore` (`src/bot.js`):
the two short-circuit reasons plus the five issue tags. -/
inductive Issue where
  | invalid_session
  | session_reused
  | too_fast
  | score_exceeds_time
  | exceeds_cap
  | level_mismatch
  | frame_mismatch
deriving DecidableEq, Repr

/-- A game session as stored in the `gameSessions` map:
`{ telegramId, startedAt, used }` (the `id` field duplicates the map key
and is never read, so it is omitted). -/
structure Session where
  telegramId : Nat
  startedAt : Nat
  used : Bool
deriving DecidableEq, Repr

/-- The score-claim fields `validateScore` destructures from the request
body: `{ score, level, coins_earned, frames, duration }`. -/
structure ScoreClaim where
  score : Nat
  level : Nat
  coins_earned : Nat
  frames : Option Nat
  duration : Option Nat
deriving DecidableEq, Repr

/-- The object returned by `validateScore`. The short-circuit returns
carry only `valid` and `reason`; the full path carries `valid`, `issues`
and `flagged` and no `reason`. Fields absent in the JS object are `none`. -/
structure Verdict where
  valid : Bool
  reason : Option Issue
  issues : Option (List Issue)
  flagged : Option Bool
deriving DecidableEq, Repr

/-- `SCORE_LIMITS.MAX_ABSOLUTE_SCORE`. -/
def MAX_ABSOLUTE_SCORE : Nat := 500

/-- `SCORE_LIMITS.MIN_GAME_DURATION_MS`. -/
def MIN_GAME_DURATION_MS : Nat := 3000

/-- `Math.ceil((elapsed / 1000) * SCORE_LIMITS.MAX_SCORE_PER_SECOND)` with
`MAX_SCORE_PER_SECOND = 1.2`: the exact ceiling of `elapsed * 12 / 10000`. -/
def maxScoreForTime (elapsed : Nat) : Nat := (elapsed * 12 + 9999) / 10000

/-- `SCORE_LIMITS.MAX_LEVEL_FOR_SCORE = (s) => Math.floor(s / 10) + 2`. -/
def MAX_LEVEL_FOR_SCORE (s : Nat) : Nat := s / 10 + 2

/-- JS truthiness of an optional numeric field: present and non-zero. -/
def truthy : Option Nat → Bool
  | none => false
  | some n => n != 0

/-- The frame-count sanity test on truthy `frames` and `duration`:
`expectedFrames = (duration / 1000) * 60`, mismatch when
`frames < expectedFrames * 0.3` or `frames > expectedFrames * 2`.
Cleared of denominators: `frames * 500 < duration * 9` or
`frames * 25 > duration * 3`. -/
def frameMismatch (f d : Nat) : Bool :=
  f * 500 < d * 9 || f * 25 > d * 3

/-- The issue list accumulated by checks 2-6 of `validateScore` for a
live (existing, unconsumed) session, in source order:
`too_fast`, `score_exceeds_time`, `exceeds_cap`, `level_mismatch`,
`frame_mismatch`. -/
def computeIssues (elapsed : Nat) (body : ScoreClaim) : List Issue :=
  (if elapsed < MIN_GAME_DURATION_MS then [Issue.too_fast] else [])
    ++ (if body.score > maxScoreForTime elapsed then [Issue.score_exceeds_time] else [])
    ++ (if body.score > MAX_ABSOLUTE_SCORE then [Issue.exceeds_cap] else [])
    ++ (if body.level > MAX_LEVEL_FOR_SCORE body.score then [Issue.level_mismatch] else [])
    ++ (if truthy body.frames && truthy body.duration
          && frameMismatch (body.frames.getD 0) (body.duration.getD 0)
        then [Issue.frame_mismatch] else [])

/-- The `hardFails` array of `validateScore`. -/
def hardFails : List Issue :=
  [Issue.invalid_session, Issue.session_reused, Issue.exceeds_cap,
   Issue.score_exceeds_time, Issue.too_fast]

/-- `validateScore(session, body)` from `src/bot.js`, with the call to
`Date.now()` passed in as `now`. Missing session and consumed session
return early with only `valid` and `reason`; otherwise all five checks
run and the verdict is `valid = not hard-fail`, the issue list, and
`flagged = issues non-empty`. -/
def validateScore (session : Option Session) (now : Nat) (body : ScoreClaim) : Verdict :=
  match session with
  | none =>
      { valid := false, reason := some Issue.invalid_session,
        issues := none, flagged := none }
  | some s =>
      if s.used then
        { valid := false, reason := some Issue.session_reused,
          issues := none, flagged := none }
      else
        let elapsed := now - s.startedAt
        let issues := computeIssues elapsed body
        let isHardFail := issues.any fun i => hardFails.contains i
        { valid := !isHardFail, reason := none,
          issues := some issues, flagged := some (!issues.isEmpty) }

/-- The server's mutable state touched by the modelled endpoints: the
`gameSessions` map (as an association list keyed by session id, opaque
tokens modelled as `Nat`), plus the rows handed to the persistence
collaborator: `db.submitScore(telegram_id, score, ...)` and
`db.submitTournamentScore(tournamentId, telegram_id, score, ...)`,
recorded as `(telegramId, score)` and `(tournamentId, telegramId, score)`. -/
structure ServerState where
  gameSessions : List (Nat × Session)
  scores : List (Nat × Nat)
  tournamentScores : List (Nat × Nat × Nat)
deriving DecidableEq, Repr

/-- `gameSessions.get(session_id)`. -/
def sessionsGet (m : List (Nat × Session)) (id : Nat) : Option Session :=
  (m.find? fun p => p.fst == id).map Prod.snd

/-- `session.used = true` applied through the map: every entry stored
under `id` gets its `used` flag set. -/
def markUsed (m : List (Nat × Session)) (id : Nat) : List (Nat × Session) :=
  m.map fun p => if p.fst == id then (p.fst, { p.snd with used := true }) else p

/-- The fields of a `POST /api/score` request body that the handler
reads (ignoring `first_name`, `username` and `signature`, which do not
affect acceptance). -/
structure ScoreRequest where
  telegram_id : Nat
  score : Nat
  level : Nat
  coins_earned : Nat
  session_id : Nat
  frames : Option Nat
  duration : Option Nat
deriving DecidableEq, Repr

/-- The claim object the handler passes to `validateScore`. -/
def ScoreRequest.claim (r : ScoreRequest) : ScoreClaim :=
  { score := r.score, level := r.level, coins_earned := r.coins_earned,
    frames := r.frames, duration := r.duration }

/-- Outcome of `POST /api/score`: 400 missing fields, 403 ownership
(`error: Invalid session`), 403 validation (`error: Score rejected`,
carrying `validation.reason`, absent for issue-list rejections), or 200
with the `flagged` bit. -/
inductive ApiResult where
  | badRequest
  | ownershipError
  | rejected (reason : Option Issue)
  | ok (flagged : Bool)
deriving DecidableEq, Repr

/-- `session && session.telegramId !== telegram_id`. -/
def ownerMismatch : Option Session → Nat → Bool
  | some s, tid => s.telegramId != tid
  | none, _ => false

/-- The `app.post('/api/score')` handler from `src/bot.js`: required-field
check (`!telegram_id`, with `telegram_id = 0` the falsy case; `score` is
always supplied here), ownership check on a found session, anti-cheat
validation, then — only on the accept path — `if (session)
session.used = true` followed by score persistence. Every other path
returns with the state unchanged. -/
def handleScore (st : ServerState) (now : Nat) (req : ScoreRequest) :
    ApiResult × ServerState :=
  if req.telegram_id == 0 then (ApiResult.badRequest, st)
  else if ownerMismatch (sessionsGet st.gameSessions req.session_id) req.telegram_id then
    (ApiResult.ownershipError, st)
  else if !(validateScore (sessionsGet st.gameSessions req.session_id) now req.claim).valid then
    (ApiResult.rejected
      (validateScore (sessionsGet st.gameSessions req.session_id) now req.claim).reason, st)
  else
    (ApiResult.ok
      ((validateScore (sessionsGet st.gameSessions req.session_id) now req.claim).flagged.getD false),
     { gameSessions :=
         if (sessionsGet st.gameSessions req.session_id).isSome then
           markUsed st.gameSessions req.session_id
         else st.gameSessions,
       scores := st.scores ++ [(req.telegram_id, req.score)],
       tournamentScores := st.tournamentScores })

/-- Retention of the periodic session sweep: `30 * 60 * 1000` ms. -/
def SESSION_RETENTION_MS : Nat := 30 * 60 * 1000

/-- The sweep body generalised over the retention window: keep exactly
the sessions with `!(startedAt < now - retentionMs)` (the source's
`setInterval` body deletes those with `sess.startedAt < cutoff`,
`cutoff = Date.now() - 30 * 60 * 1000`). -/
def sweepWith (retentionMs now : Nat) (m : List (Nat × Session)) :
    List (Nat × Session) :=
  m.filter fun p => !(p.snd.startedAt < now - retentionMs)

/-- The sweep as the source runs it, at the fixed 30-minute retention. -/
def sweepSessions (now : Nat) (m : List (Nat × Session)) : List (Nat × Session) :=
  sweepWith SESSION_RETENTION_MS now m

/-- A tournament row as read by the tournament score endpoint:
`start_time` and `end_time` as millisecond timestamps. -/
structure Tournament where
  start_time : Nat
  end_time : Nat
deriving DecidableEq, Repr

/-- Outcome of `POST /api/tournament/:id/score`. -/
inductive TournamentApiResult where
  | notFound
  | notActive
  | badRequest
  | scoreRejected
  | ownershipError
  | ok
deriving DecidableEq, Repr

/-- The `app.post('/api/tournament/:id/score')` handler:
404 when `db.getTournament` finds nothing, 400 outside the tournament
window or on missing fields, 403 on `score > MAX_ABSOLUTE_SCORE` or on
an ownership mismatch of a found session; otherwise the score is
persisted directly — `validateScore` is never called and the session,
found or not, is left untouched. -/
def handleTournamentScore (st : ServerState) (tournament : Option Tournament)
    (tournamentId : Nat) (now : Nat) (req : ScoreRequest) :
    TournamentApiResult × ServerState :=
  match tournament with
  | none => (TournamentApiResult.notFound, st)
  | some t =>
      if now < t.start_time ∨ now > t.end_time then
        (TournamentApiResult.notActive, st)
      else if req.telegram_id == 0 then (TournamentApiResult.badRequest, st)
      else if req.score > MAX_ABSOLUTE_SCORE then
        (TournamentApiResult.scoreRejected, st)
      else if ownerMismatch (sessionsGet st.gameSessions req.session_id) req.telegram_id then
        (TournamentApiResult.ownershipError, st)
      else
        (TournamentApiResult.ok,
         { gameSessions := st.gameSessions,
           scores := st.scores,
           tournamentScores :=
             st.tournamentScores ++ [(tournamentId, req.telegram_id, req.score)] })

/-! ### Concrete fixtures used by counterexamples and witnesses -/

/-- A fresh session owned by player 1, started at time 0. -/
def sessFresh : Session := { telegramId := 1, startedAt := 0, used := false }

/-- A consumed session owned by player 1. -/
def sessUsedEx : Session := { telegramId := 1, startedAt := 0, used := true }

/-- A fresh session owned by player 2, started at time 0. -/
def sessOwner2 : Session := { telegramId := 2, startedAt := 0, used := false }

/-- A claim with the given score, level 1, and no frame data. -/
def claimScore (n : Nat) : ScoreClaim :=
  { score := n, level := 1, coins_earned := 0, frames := none, duration := none }

/-- A claim reporting `frames = 0` over a positive duration. -/
def claimZeroFrames : ScoreClaim :=
  { score := 5, level := 1, coins_earned := 0, frames := some 0,
    duration := some 10000 }

/-- Server state holding only `sessFresh` under session id 1. -/
def exSt : ServerState :=
  { gameSessions := [(1, sessFresh)], scores := [], tournamentScores := [] }

/-- `exSt` after the accepted score-5 submission: session consumed, one
persisted row. -/
def exStUsed : ServerState :=
  { gameSessions := [(1, sessUsedEx)], scores := [(1, 5)], tournamentScores := [] }

/-- Server state whose only session (id 1) belongs to player 2. -/
def exStOther : ServerState :=
  { gameSessions := [(1, sessOwner2)], scores := [], tournamentScores := [] }

/-- Server state with no sessions at all. -/
def exStEmpty : ServerState :=
  { gameSessions := [], scores := [], tournamentScores := [] }

/-- A request by the session owner claiming score 501 on session 1. -/
def exReqBig : ScoreRequest :=
  { telegram_id := 1, score := 501, level := 1, coins_earned := 0,
    session_id := 1, frames := none, duration := none }

/-- A request by the session owner claiming score 5 on session 1. -/
def exReqOk : ScoreRequest :=
  { telegram_id := 1, score := 5, level := 1, coins_earned := 0,
    session_id := 1, frames := none, duration := none }

/-- A tournament running from time 0 to time 100000. -/
def exTournament : Tournament := { start_time := 0, end_time := 100000 }

/-! ### Helper lemmas on the validator -/

/-- Membership in a one-element conditional issue block. -/
theorem mem_ite_singleton {i x : Issue} {c : Prop} [Decidable c] :
    i ∈ (if c then [x] else ([] : List Issue)) ↔ c ∧ i = x := by
  split_ifs with h <;> simp [h]

/-- Exact characterisation of the issue list produced by checks 2-6. -/
theorem mem_computeIssues (i : Issue) (e : Nat) (b : ScoreClaim) :
    i ∈ computeIssues e b ↔
      (e < MIN_GAME_DURATION_MS ∧ i = Issue.too_fast) ∨
      (b.score > maxScoreForTime e ∧ i = Issue.score_exceeds_time) ∨
      (b.score > MAX_ABSOLUTE_SCORE ∧ i = Issue.exceeds_cap) ∨
      (b.level > MAX_LEVEL_FOR_SCORE b.score ∧ i = Issue.level_mismatch) ∨
      ((truthy b.frames && truthy b.duration
          && frameMismatch (b.frames.getD 0) (b.duration.getD 0)) = true
        ∧ i = Issue.frame_mismatch) := by
  unfold computeIssues
  simp only [List.mem_append, mem_ite_singleton, or_assoc]

/-- On a live session the validator returns the full verdict built from
`computeIssues`. -/
theorem validateScore_unused (s : Session) (now : Nat) (body : ScoreClaim)
    (h : s.used = false) :
    validateScore (some s) now body =
      { valid := !((computeIssues (now - s.startedAt) body).any
            fun i => hardFails.contains i),
        reason := none,
        issues := some (computeIssues (now - s.startedAt) body),
        flagged := some (!(computeIssues (now - s.startedAt) body).isEmpty) } := by
  simp [validateScore, h]

/-- The hard-fail test on a computed issue list reduces to the presence
of one of the three rate/cap tags: `invalid_session` and
`session_reused` never occur in `computeIssues`. -/
theorem computeIssues_hardFail (e : Nat) (b : ScoreClaim) :
    ((computeIssues e b).any fun i => hardFails.contains i) = true ↔
      (Issue.exceeds_cap ∈ computeIssues e b ∨
       Issue.score_exceeds_time ∈ computeIssues e b ∨
       Issue.too_fast ∈ computeIssues e b) := by
  rw [List.any_eq_true]
  constructor
  · rintro ⟨i, hi, hc⟩
    have hmem : i ∈ hardFails := by simpa using hc
    have hchar := (mem_computeIssues i e b).mp hi
    simp only [hardFails, List.mem_cons, List.not_mem_nil, or_false] at hmem
    rcases hmem with h | h | h | h | h <;> subst h
    · simp at hchar
    · simp at hchar
    · exact Or.inl hi
    · exact Or.inr (Or.inl hi)
    · exact Or.inr (Or.inr hi)
  · rintro (h | h | h)
    · exact ⟨Issue.exceeds_cap, h, by decide⟩
    · exact ⟨Issue.score_exceeds_time, h, by decide⟩
    · exact ⟨Issue.too_fast, h, by decide⟩

/-- Negation on `Bool` as a propositional equivalence. -/
theorem bool_not_true_iff (b : Bool) : ((!b) = true) ↔ ¬(b = true) := by
  cases b <;> simp

/-- Looking up a session id after `markUsed` on that id yields the
original session with its `used` flag set. -/
theorem sessionsGet_markUsed (m : List (Nat × Session)) (id : Nat) :
    sessionsGet (markUsed m id) id =
      (sessionsGet m id).map fun s => { s with used := true } := by
  induction m with
  | nil => rfl
  | cons p m ih =>
    by_cases hp : (p.fst == id) = true
    · unfold markUsed sessionsGet
      rw [List.map_cons, if_pos hp, List.find?_cons_of_pos _ (by simpa using hp),
          List.find?_cons_of_pos (p := fun (q : Nat × Session) => q.fst == id) _ hp]
      rfl
    · have hp' : (p.fst == id) = false := by simpa using hp
      unfold markUsed sessionsGet
      rw [List.map_cons, if_neg (by simp [hp']), List.find?_cons_of_neg _ (by simp [hp']),
          List.find?_cons_of_neg _ (by simp [hp'])]
      exact ih

/-- Anatomy of an accepted `POST /api/score` call: the claimed id is
truthy, a session was found, it belongs to the claimant, and the
resulting state has that session marked used. -/
theorem handleScore_ok_shape (st : ServerState) (now : Nat) (req : ScoreRequest)
    (f : Bool) (st' : ServerState)
    (h : handleScore st now req = (ApiResult.ok f, st')) :
    (req.telegram_id == 0) = false ∧
    ∃ s, sessionsGet st.gameSessions req.session_id = some s ∧
      s.telegramId = req.telegram_id ∧
      st'.gameSessions = markUsed st.gameSessions req.session_id := by
  unfold handleScore at h
  by_cases h0 : (req.telegram_id == 0) = true
  · rw [if_pos h0] at h
    simp [Prod.ext_iff] at h
  · have h0' : (req.telegram_id == 0) = false := by simpa using h0
    rw [h0'] at h
    cases hsess : sessionsGet st.gameSessions req.session_id with
    | none =>
      rw [hsess] at h
      simp [ownerMismatch, validateScore, Prod.ext_iff] at h
    | some s =>
      rw [hsess] at h
      by_cases hm : (s.telegramId != req.telegram_id) = true
      · simp [ownerMismatch, hm, Prod.ext_iff] at h
      · have hm' : s.telegramId = req.telegram_id := by simpa using hm
        cases hv : (validateScore (some s) now req.claim).valid with
        | false =>
          simp [ownerMismatch, hm, hv, Prod.ext_iff] at h
        | true =>
          simp only [ownerMismatch, hm, hv, Bool.not_true, Option.isSome_some,
            if_true, if_false, Bool.false_eq_true, Prod.ext_iff] at h
          refine ⟨h0', s, rfl, hm', ?_⟩
          rw [← h.2]

/-! ### Claim theorems -/

/-- C3 counterexample: at elapsed exactly 2000 ms a claim of score 3 is
NOT accepted — the verdict is a rejection carrying `too_fast`
(2000 < 3000), contrary to the claim's "a claim with score 3 is
accepted". -/
theorem c3_counterexample :
    validateScore (some sessFresh) 2000 (claimScore 3) =
      { valid := false, reason := none, issues := some [Issue.too_fast],
        flagged := some true } := by decide

/-- C3 (amended): at elapsed exactly 2000 ms, score 3 does not receive
`score_exceeds_time` (3 ≤ ceil(2.0 × 1.2) = 3) but the submission is
nonetheless rejected, carrying `too_fast`; score 4 receives
`score_exceeds_time` and is rejected. -/
theorem c3_rate_limit_boundary :
    Issue.score_exceeds_time ∉
        ((validateScore (some sessFresh) 2000 (claimScore 3)).issues.getD []) ∧
    Issue.too_fast ∈
        ((validateScore (some sessFresh) 2000 (claimScore 3)).issues.getD []) ∧
    (validateScore (some sessFresh) 2000 (claimScore 3)).valid = false ∧
    Issue.score_exceeds_time ∈
        ((validateScore (some sessFresh) 2000 (claimScore 4)).issues.getD []) ∧
    (validateScore (some sessFresh) 2000 (claimScore 4)).valid = false := by
  decide

/-- C4: for every existing, unconsumed session and every claim, the
verdict's accepted bit is true exactly when no hard-fail issue
(`exceeds_cap`, `score_exceeds_time`, `too_fast`) is present in its
issue set, and `flagged` is exactly "issue set non-empty" — so the soft
issues `level_mismatch` and `frame_mismatch`, alone or together, never
cause rejection but do set `flagged`. -/
theorem c4_policy_split (s : Session) (now : Nat) (body : ScoreClaim)
    (h : s.used = false) :
    ∃ is, (validateScore (some s) now body).issues = some is ∧
      ((validateScore (some s) now body).valid = true ↔
        (Issue.exceeds_cap ∉ is ∧ Issue.score_exceeds_time ∉ is ∧
         Issue.too_fast ∉ is)) ∧
      (validateScore (some s) now body).flagged = some (!is.isEmpty) := by
  rw [validateScore_unused s now body h]
  refine ⟨computeIssues (now - s.startedAt) body, rfl, ?_, rfl⟩
  rw [bool_not_true_iff, computeIssues_hardFail]
  tauto

/-- C4 witness: a fresh session with a level-mismatched but otherwise
plausible claim — accepted yet flagged. -/
theorem c4_policy_split_witness :
    sessFresh.used = false ∧
    (∃ is, (validateScore (some sessFresh) 10000 (claimScore 5)).issues = some is ∧
      ((validateScore (some sessFresh) 10000 (claimScore 5)).valid = true ↔
        (Issue.exceeds_cap ∉ is ∧ Issue.score_exceeds_time ∉ is ∧
         Issue.too_fast ∉ is)) ∧
      (validateScore (some sessFresh) 10000 (claimScore 5)).flagged =
        some (!is.isEmpty)) :=
  ⟨rfl, c4_policy_split sessFresh 10000 (claimScore 5) rfl⟩

/-- C5 counterexample: validating a consumed session yields a verdict
with NO issue set at all (the JS returns `{valid, reason}` only), so in
particular its issue set does not contain `session_reused`, contrary to
the claim. -/
theorem c5_counterexample :
    (validateScore (some sessUsedEx) 5000 (claimScore 3)).issues = none ∧
    Issue.session_reused ∉
      ((validateScore (some sessUsedEx) 5000 (claimScore 3)).issues.getD []) ∧
    (validateScore (some sessUsedEx) 5000 (claimScore 3)).reason =
      some Issue.session_reused := by decide

/-- C5 (amended): only for an existing, unconsumed session does the
validator evaluate all checks and return the full issue set with
`flagged = (issue set non-empty)`; for a missing or consumed session it
short-circuits, returning a rejection whose only diagnostic is the
`reason` field (`invalid_session` / `session_reused`) and no issue set. -/
theorem c5_verdict_shape (session : Option Session) (now : Nat) (body : ScoreClaim) :
    (session = none →
      validateScore session now body =
        { valid := false, reason := some Issue.invalid_session,
          issues := none, flagged := none }) ∧
    (∀ s, session = some s → s.used = true →
      validateScore session now body =
        { valid := false, reason := some Issue.session_reused,
          issues := none, flagged := none }) ∧
    (∀ s, session = some s → s.used = false →
      (validateScore session now body).issues =
          some (computeIssues (now - s.startedAt) body) ∧
      (validateScore session now body).flagged =
          some (!(computeIssues (now - s.startedAt) body).isEmpty)) := by
  refine ⟨?_, ?_, ?_⟩
  · rintro rfl; rfl
  · rintro s rfl hu; simp [validateScore, hu]
  · rintro s rfl hu
    rw [validateScore_unused s now body hu]
    exact ⟨rfl, rfl⟩

/-- C5 witness: the consumed-session case of `c5_verdict_shape` at a
concrete session. -/
theorem c5_verdict_shape_witness :
    sessUsedEx.used = true ∧
    validateScore (some sessUsedEx) 5000 (claimScore 3) =
      { valid := false, reason := some Issue.session_reused,
        issues := none, flagged := none } :=
  ⟨rfl, (c5_verdict_shape (some sessUsedEx) 5000 (claimScore 3)).2.1 sessUsedEx rfl rfl⟩

/-- C7: every claim with score above `MAX_ABSOLUTE_SCORE = 500` is
rejected by the validator, for every session state (missing, consumed,
or live) and every elapsed time. -/
theorem c7_absolute_cap (session : Option Session) (now : Nat) (body : ScoreClaim)
    (h : body.score > MAX_ABSOLUTE_SCORE) :
    (validateScore session now body).valid = false := by
  match session with
  | none => rfl
  | some s =>
    cases hu : s.used with
    | true => simp [validateScore, hu]
    | false =>
      rw [validateScore_unused s now body hu]
      have hmem : Issue.exceeds_cap ∈ computeIssues (now - s.startedAt) body :=
        (mem_computeIssues _ _ _).mpr (Or.inr (Or.inr (Or.inl ⟨h, rfl⟩)))
      have hany := (computeIssues_hardFail (now - s.startedAt) body).mpr (Or.inl hmem)
      simp
      exact ⟨Issue.exceeds_cap, hmem, by decide⟩

/-- C7 witness: score 501 on a live 10-second session is rejected. -/
theorem c7_absolute_cap_witness :
    (claimScore 501).score > MAX_ABSOLUTE_SCORE ∧
    (validateScore (some sessFresh) 10000 (claimScore 501)).valid = false :=
  ⟨by decide, c7_absolute_cap (some sessFresh) 10000 (claimScore 501) (by decide)⟩

/-- C10: the frame-count check is guarded by JS truthiness, so a claim
whose `frames` field is 0 — or whose `duration` field is 0 — never
receives the `frame_mismatch` issue, for any session and clock. -/
theorem c10_falsy_frames (session : Option Session) (now : Nat) (body : ScoreClaim)
    (h : body.frames = some 0 ∨ body.duration = some 0) :
    Issue.frame_mismatch ∉ ((validateScore session now body).issues.getD []) := by
  match session with
  | none => simp [validateScore]
  | some s =>
    cases hu : s.used with
    | true => simp [validateScore, hu]
    | false =>
      rw [validateScore_unused s now body hu]
      intro hmem
      simp only [Option.getD_some] at hmem
      have hchar := (mem_computeIssues _ _ _).mp hmem
      rcases hchar with ⟨_, h'⟩ | ⟨_, h'⟩ | ⟨_, h'⟩ | ⟨_, h'⟩ | ⟨hcond, _⟩
      · cases h'
      · cases h'
      · cases h'
      · cases h'
      · rcases h with hf | hd
        · simp [hf, truthy] at hcond
        · simp [hd, truthy] at hcond

/-- C10 witness: `frames = 0` over a 10-second duration, which lies far
below 0.3 × the expected frame count, still yields no `frame_mismatch`. -/
theorem c10_falsy_frames_witness :
    (claimZeroFrames.frames = some 0 ∨ claimZeroFrames.duration = some 0) ∧
    Issue.frame_mismatch ∉
      ((validateScore (some sessFresh) 10000 claimZeroFrames).issues.getD []) :=
  ⟨Or.inl rfl, c10_falsy_frames (some sessFresh) 10000 claimZeroFrames (Or.inl rfl)⟩

/-- C8 counterexample: a session created at `T = 0` and swept with
retention `R` at exactly `now = T + R` is still present in lookups —
the sweep deletes only sessions with `now - startedAt` strictly greater
than the retention, contrary to the claim's "any time now ≥ T + R". -/
theorem c8_counterexample :
    sessFresh.startedAt = 0 ∧
    sessionsGet
      (sweepWith SESSION_RETENTION_MS SESSION_RETENTION_MS [(1, sessFresh)]) 1 =
      some sessFresh := by decide

/-- C8 (amended): after a sweep at any time strictly later than
`startedAt + retention`, the session is gone from the store (consumed or
not), and any session a lookup still returns is within retention. -/
theorem c8_expiry (retentionMs now : Nat) (m : List (Nat × Session))
    (id : Nat) (s : Session) (h : s.startedAt + retentionMs < now) :
    (id, s) ∉ sweepWith retentionMs now m ∧
    ∀ s', sessionsGet (sweepWith retentionMs now m) id = some s' →
      now - s'.startedAt ≤ retentionMs := by
  constructor
  · intro hmem
    have hp := (List.mem_filter.mp hmem).2
    simp only [Bool.not_eq_true', decide_eq_false_iff_not, Nat.not_lt] at hp
    omega
  · intro s' hs'
    unfold sessionsGet at hs'
    obtain ⟨q, hfind, hsnd⟩ := Option.map_eq_some'.mp hs'
    have hmem := List.mem_of_find?_eq_some hfind
    have hp := (List.mem_filter.mp hmem).2
    simp only [Bool.not_eq_true', decide_eq_false_iff_not, Nat.not_lt] at hp
    subst hsnd
    omega

/-- C8 witness: one millisecond past the retention window the swept
store no longer holds the session and lookups cannot return a stale one. -/
theorem c8_expiry_witness :
    sessFresh.startedAt + SESSION_RETENTION_MS < SESSION_RETENTION_MS + 1 ∧
    ((1, sessFresh) ∉
        sweepWith SESSION_RETENTION_MS (SESSION_RETENTION_MS + 1) [(1, sessFresh)] ∧
     ∀ s', sessionsGet
          (sweepWith SESSION_RETENTION_MS (SESSION_RETENTION_MS + 1)
            [(1, sessFresh)]) 1 = some s' →
        (SESSION_RETENTION_MS + 1) - s'.startedAt ≤ SESSION_RETENTION_MS) :=
  ⟨by decide,
   c8_expiry SESSION_RETENTION_MS (SESSION_RETENTION_MS + 1) [(1, sessFresh)] 1
     sessFresh (by decide)⟩

/-- C1 counterexample: a hard-rejected submission (score 501,
`exceeds_cap`) does not consume the session, so a second submission on
the same session id is accepted rather than failing with
`session_reused`, contrary to the claim's "either accepted or
hard-rejected". -/
theorem c1_counterexample :
    (handleScore exSt 10000 exReqBig).fst = ApiResult.rejected none ∧
    (handleScore (handleScore exSt 10000 exReqBig).snd 10000 exReqOk).fst =
      ApiResult.ok false ∧
    (handleScore (handleScore exSt 10000 exReqBig).snd 10000 exReqOk).fst ≠
      ApiResult.rejected (some Issue.session_reused) := by decide

/-- C1 (amended): after one ACCEPTED submission through the gateway,
any second submission using the same session id and the same claimed
player is rejected with `session_reused`; a hard-rejected submission
does not consume the session. -/
theorem c1_single_use_after_accept (st st' : ServerState) (now now' : Nat)
    (req req' : ScoreRequest) (f : Bool)
    (hfirst : handleScore st now req = (ApiResult.ok f, st'))
    (hsid : req'.session_id = req.session_id)
    (htid : req'.telegram_id = req.telegram_id) :
    (handleScore st' now' req').fst = ApiResult.rejected (some Issue.session_reused) := by
  obtain ⟨h0, s, hfind, howner, hsess⟩ := handleScore_ok_shape st now req f st' hfirst
  have hfind' : sessionsGet st'.gameSessions req'.session_id =
      some { s with used := true } := by
    rw [hsid, hsess, sessionsGet_markUsed, hfind]
    rfl
  have h0' : (req'.telegram_id == 0) = false := by rw [htid]; exact h0
  unfold handleScore
  rw [h0', hfind']
  simp [ownerMismatch, htid, howner, validateScore]

/-- C1 witness: accept score 5 on session 1, then replay the identical
request — rejected with `session_reused`. -/
theorem c1_single_use_witness :
    handleScore exSt 10000 exReqOk = (ApiResult.ok false, exStUsed) ∧
    (handleScore exStUsed 10000 exReqOk).fst =
      ApiResult.rejected (some Issue.session_reused) :=
  ⟨by decide,
   c1_single_use_after_accept exSt exStUsed 10000 10000 exReqOk exReqOk false
     (by decide) rfl rfl⟩

/-- C2 counterexample: a rejected submission leaves the session's `used`
flag at `false` — the gateway only marks the session consumed on the
accept path — contrary to the claim that every rejection marks the
session consumed before responding. -/
theorem c2_counterexample :
    (handleScore exSt 10000 exReqBig).fst = ApiResult.rejected none ∧
    (sessionsGet ((handleScore exSt 10000 exReqBig).snd).gameSessions 1).map
        Session.used = some false := by decide

/-- C2 (amended): a submission that is not accepted leaves the server
state completely unchanged — nothing is persisted and the session's
`used` flag is NOT set; only accepted submissions consume the session. -/
theorem c2_reject_leaves_state (st : ServerState) (now : Nat) (req : ScoreRequest)
    (r : ApiResult) (st' : ServerState)
    (h : handleScore st now req = (r, st'))
    (hr : ∀ f, r ≠ ApiResult.ok f) :
    st' = st := by
  unfold handleScore at h
  split_ifs at h <;>
    first
      | exact (Prod.ext_iff.mp h).2.symm
      | exact absurd (Prod.ext_iff.mp h).1.symm (hr _)

/-- C2 witness: the hard-rejected score-501 submission leaves `exSt`
unchanged. -/
theorem c2_reject_leaves_state_witness :
    handleScore exSt 10000 exReqBig = (ApiResult.rejected none, exSt) ∧ exSt = exSt :=
  ⟨by decide,
   c2_reject_leaves_state exSt 10000 exReqBig (ApiResult.rejected none) exSt
     (by decide) (fun f hf => ApiResult.noConfusion hf)⟩

/-- C6: a submission whose claimed player id differs from the owner
recorded in the session it names is never answered with success and
persists nothing, regardless of the claimed score. -/
theorem c6_ownership (st : ServerState) (now : Nat) (req : ScoreRequest)
    (s : Session)
    (hfind : sessionsGet st.gameSessions req.session_id = some s)
    (hneq : s.telegramId ≠ req.telegram_id) :
    (∀ f, (handleScore st now req).fst ≠ ApiResult.ok f) ∧
    ((handleScore st now req).snd).scores = st.scores := by
  unfold handleScore
  by_cases h0 : (req.telegram_id == 0) = true
  · rw [if_pos h0]
    exact ⟨fun f hf => ApiResult.noConfusion hf, rfl⟩
  · have h0' : (req.telegram_id == 0) = false := by simpa using h0
    have hm : ownerMismatch (sessionsGet st.gameSessions req.session_id)
        req.telegram_id = true := by
      rw [hfind]
      simpa [ownerMismatch] using hneq
    rw [h0', hm]
    exact ⟨fun f hf => ApiResult.noConfusion hf, rfl⟩

/-- C6 witness: player 1 submits on player 2's session — no success, no
persistence. -/
theorem c6_ownership_witness :
    sessionsGet exStOther.gameSessions exReqOk.session_id = some sessOwner2 ∧
    sessOwner2.telegramId ≠ exReqOk.telegram_id ∧
    ((∀ f, (handleScore exStOther 10000 exReqOk).fst ≠ ApiResult.ok f) ∧
     ((handleScore exStOther 10000 exReqOk).snd).scores = exStOther.scores) :=
  ⟨by decide, by decide,
   c6_ownership exStOther 10000 exReqOk sessOwner2 (by decide) (by decide)⟩

/-- C9: the tournament score endpoint bypasses the score validator —
within the tournament window, any claim with a truthy player id, score
at most 500 and no ownership mismatch on a found session (in particular
a session id matching no stored session) is persisted directly, with no
minimum-duration or score-rate check, and the session store is left
untouched, so a session is never consumed by tournament submissions. -/
theorem c9_tournament_bypass (st : ServerState) (t : Tournament)
    (tournamentId now : Nat) (req : ScoreRequest)
    (hstart : t.start_time ≤ now) (hend : now ≤ t.end_time)
    (htid : req.telegram_id ≠ 0) (hcap : req.score ≤ MAX_ABSOLUTE_SCORE)
    (hown : ownerMismatch (sessionsGet st.gameSessions req.session_id)
        req.telegram_id = false) :
    handleTournamentScore st (some t) tournamentId now req =
      (TournamentApiResult.ok,
       { gameSessions := st.gameSessions, scores := st.scores,
         tournamentScores :=
           st.tournamentScores ++ [(tournamentId, req.telegram_id, req.score)] }) := by
  have h1 : ¬(now < t.start_time ∨ now > t.end_time) := by omega
  have h2 : (req.telegram_id == 0) = false := by simpa using htid
  have h3 : ¬(req.score > MAX_ABSOLUTE_SCORE) := Nat.not_lt.mpr hcap
  simp [handleTournamentScore, h1, h2, h3, hown]

/-- C9 witness: with an empty session store (the claimed session id 1
matches nothing), a tournament submission is persisted and the session
store stays empty. -/
theorem c9_tournament_bypass_witness :
    (exTournament.start_time ≤ 50 ∧ 50 ≤ exTournament.end_time ∧
     exReqOk.telegram_id ≠ 0 ∧ exReqOk.score ≤ MAX_ABSOLUTE_SCORE ∧
     ownerMismatch (sessionsGet exStEmpty.gameSessions exReqOk.session_id)
       exReqOk.telegram_id = false) ∧
    handleTournamentScore exStEmpty (some exTournament) 7 50 exReqOk =
      (TournamentApiResult.ok,
       { gameSessions := exStEmpty.gameSessions, scores := exStEmpty.scores,
         tournamentScores :=
           exStEmpty.tournamentScores ++ [(7, exReqOk.telegram_id, exReqOk.score)] }) :=
  ⟨⟨by decide, by decide, by decide, by decide, by decide⟩,
   c9_tournament_bypass exStEmpty exTournament 7 50 exReqOk (by decide) (by decide)
     (by decide) (by decide) (by decide)⟩

end FlappyBert
